import Mathlib

/-!
Verification of the product-importer bulk CSV pipeline.

Shallow embedding of `backend/app/tasks.py` (`process_csv_import_sync`,
`trigger_webhooks_sync`) and `backend/app/main.py` (`import_progress`).

Modelling conventions:
* A pandas dataframe cell is `Option String`; `none` models a missing/NaN
  value (pandas parses empty cells and null tokens to NaN).  `str(cell)`
  on NaN yields the text "nan", modelled by `pyStr`.
* Database commits that the source wraps in try/except are driven by an
  oracle `commitFails : Nat → Option String` indexed by the order of those
  guarded commit attempts; `some msg` means the commit raises an exception
  whose `str()` is `msg`, after which the source calls `rollback()`
  (uncommitted catalog changes are discarded).  Commits the source does
  not guard are assumed to succeed; their failure is an unexpected
  exception, covered separately by the fault-injection wrapper
  `traceWithFault`.
* Wall-clock timestamps carry no information the claims need beyond
  "was set": `completed_at` is a `Bool` ("has been set"), and a product's
  `updated_at` is `Option Nat` set to the global row index that updated it.
* Exception text (`str(e)`, `traceback.format_exc()`) is opaque input.
-/

namespace ProductImporter

/-- Job status strings used by the pipeline. -/
inductive Status
  | pending
  | parsing
  | importing
  | completed
  | completedWithErrors
  | failed
deriving DecidableEq, Repr

/-- Terminal statuses: `completed`, `completed_with_errors`, `failed`. -/
def Status.isTerminal : Status → Bool
  | .completed => true
  | .completedWithErrors => true
  | .failed => true
  | _ => false

/-- The `ImportJob` row (models.py): the fields the pipeline mutates.
`completed_at` is `true` once the timestamp has been set. -/
structure Job where
  status : Status
  total_rows : Nat
  processed_rows : Nat
  error_message : Option String
  completed_at : Bool
deriving DecidableEq, Repr

/-- A freshly created job (main.py creates it with status "pending";
column defaults give 0 rows, no message, no completion timestamp). -/
def initialJob : Job :=
  { status := .pending, total_rows := 0, processed_rows := 0
    error_message := none, completed_at := false }

/-- One dataframe row; `none` models a NaN / missing cell. -/
structure Row where
  sku : Option String
  name : Option String
  description : Option String
deriving DecidableEq, Repr

/-- Python `str(cell)` for a pandas cell: NaN prints as "nan". -/
def pyStr : Option String → String
  | none => "nan"
  | some s => s

/-- Python `s.lower()` (structural recursion over the characters, so
that concrete runs reduce inside the kernel). -/
def pyLower (s : String) : String := String.mk (s.data.map Char.toLower)

/-- Python `s.strip()`: drop whitespace from both ends. -/
def pyStrip (s : String) : String :=
  String.mk
    (((s.data.dropWhile Char.isWhitespace).reverse.dropWhile
      Char.isWhitespace).reverse)

/-- The null-token list `['nan', 'none', '']` from tasks.py. -/
def nullTokens : List String := ["nan", "none", ""]

/-- The test `not v or v.lower() in ['nan', 'none', '']` applied to an
already-stripped value (used for both `sku` and `name`). -/
def invalidValue (s : String) : Bool :=
  s == "" || nullTokens.contains (pyLower s)

/-- The `Product` row (models.py): fields touched by the import. -/
structure Product where
  sku : String
  name : String
  description : String
  active : Bool
  updated_at : Option Nat
deriving DecidableEq, Repr

/-- Outcome of validating one row (the inline checks in tasks.py
lines 128-148). -/
inductive RowOutcome
  | errSku (msg : String)
  | errName (msg : String)
  | ok (sku name description : String)
deriving DecidableEq, Repr

/-- The description extraction: `str(...).strip()` when the cell is
non-null, else the empty string. -/
def descOf (row : Row) : String :=
  match row.description with
  | some d => pyStrip d
  | none => ""

/-- Per-row validation, tasks.py lines 128-148.  `idx` is the 0-based
dataframe index of the row; error messages use `idx + 2`. -/
def validateRow (idx : Nat) (row : Row) : RowOutcome :=
  let sku := pyStrip (pyStr row.sku)
  if invalidValue sku then
    .errSku ("Row " ++ toString (idx + 2) ++ ": Empty or invalid SKU")
  else
    let name := pyStrip (pyStr row.name)
    if invalidValue name then
      .errName ("Row " ++ toString (idx + 2) ++ " (SKU: " ++ sku
        ++ "): Missing or invalid product name")
    else
      .ok sku name (descOf row)

/-- Update the first product whose sku case-folds to `key` (SQLAlchemy
updates the object returned by `.first()`), setting name, description
and the modification timestamp. -/
def updateFirst (key name description : String) (now : Nat) :
    List Product → List Product
  | [] => []
  | p :: ps =>
    if pyLower p.sku == key then
      { p with name := name, description := description
               updated_at := some now } :: ps
    else
      p :: updateFirst key name description now ps

/-- The upsert, tasks.py lines 151-171: look up by case-insensitive sku;
update if found (second component `false`), else create a record
preserving the sku's original casing with `active := true`
(second component `true`). -/
def upsert (catalog : List Product) (sku name description : String)
    (now : Nat) : List Product × Bool :=
  match catalog.find? (fun p => pyLower p.sku == pyLower sku) with
  | some _ => (updateFirst (pyLower sku) name description now catalog, false)
  | none =>
    (catalog ++ [{ sku := sku, name := name, description := description
                   active := true, updated_at := none }], true)

/-- Mutable state of the row-processing loop.  `committed` is the
database content, `pending` the session view including uncommitted
changes; `commit` sets `committed := pending`, `rollback` sets
`pending := committed`.  `commitIdx` indexes the guarded commit
attempts for the failure oracle. -/
structure LoopState where
  processed : Nat
  created : Nat
  updated : Nat
  errorCount : Int
  errors : List String
  committed : List Product
  pending : List Product
  commitIdx : Nat
deriving Repr

/-- The commit every 50 successfully processed rows (tasks.py 177-184):
on failure, roll back, record one error line and count one error. -/
def maybeCommit (fail : Nat → Option String) (st : LoopState) (idx : Nat) :
    LoopState :=
  if st.processed % 50 == 0 then
    match fail st.commitIdx with
    | none => { st with committed := st.pending, commitIdx := st.commitIdx + 1 }
    | some msg =>
      { st with pending := st.committed, commitIdx := st.commitIdx + 1
                errors := st.errors ++
                  ["Database error at row " ++ toString (idx + 2) ++ ": " ++ msg]
                errorCount := st.errorCount + 1 }
  else st

/-- Process one row (tasks.py 125-192): validate, then upsert and count,
then the every-50-rows checkpoint.  Validation errors are recorded and
the row is skipped. -/
def processRow (fail : Nat → Option String) (st : LoopState) (idx : Nat)
    (row : Row) : LoopState :=
  match validateRow idx row with
  | .errSku msg =>
    { st with errors := st.errors ++ [msg], errorCount := st.errorCount + 1 }
  | .errName msg =>
    { st with errors := st.errors ++ [msg], errorCount := st.errorCount + 1 }
  | .ok sku name description =>
    let r := upsert st.pending sku name description idx
    let st1 := { st with
      pending := r.1
      created := st.created + (if r.2 then 1 else 0)
      updated := st.updated + (if r.2 then 0 else 1)
      processed := st.processed + 1 }
    maybeCommit fail st1 idx

/-- One chunk (tasks.py 125-203): the inner row loop over the rows of
the chunk (globally indexed from `i`), then the chunk-boundary commit.
On chunk-commit failure the source rolls back, appends one error line
and adds `chunk_size - processed_count` (with `chunk_size = 100` and the
_global_ success count) to `error_count`. -/
def processChunk (fail : Nat → Option String) (st : LoopState) (i : Nat)
    (chunk : List Row) : LoopState :=
  let st1 := (List.enumFrom i chunk).foldl
    (fun s p => processRow fail s p.1 p.2) st
  match fail st1.commitIdx with
  | none => { st1 with committed := st1.pending, commitIdx := st1.commitIdx + 1 }
  | some msg =>
    { st1 with
      pending := st1.committed
      commitIdx := st1.commitIdx + 1
      errors := st1.errors ++
        ["Failed to commit chunk at row " ++ toString i ++ ": " ++ msg]
      errorCount := st1.errorCount + (100 - (st1.processed : Int)) }

/-- The chunk starts produced by `range(0, total_rows, 100)`. -/
def chunkStarts (total : Nat) : List Nat :=
  (List.range ((total + 99) / 100)).map (· * 100)

/-- The outer chunk loop (tasks.py 120-210).  For each chunk start `i`
it processes `df.iloc[i:i+100]`, then records the progress snapshot
`processed_rows = min(i + 100, total_rows)` (committed unguarded).
Returns the final state and the list of committed progress values. -/
def runChunksGo (fail : Nat → Option String) (df : List Row) (total : Nat) :
    List Nat → LoopState → LoopState × List Nat
  | [], st => (st, [])
  | i :: rest, st =>
    let chunk := (df.drop i).take 100
    let st1 := processChunk fail st i chunk
    let res := runChunksGo fail df total rest st1
    (res.1, min (i + 100) total :: res.2)

/-- Bulleted error list: `"\n".join(f"• {err}" for err in ...)`. -/
def bulleted (errors : List String) : String :=
  String.intercalate "\n" (errors.map (fun e => "• " ++ e))

/-- Insert a thousands separator into a reversed digit list
(Python's `{:,}` format). -/
def groupRev : List Char → List Char
  | a :: b :: c :: d :: rest => a :: b :: c :: ',' :: groupRev (d :: rest)
  | l => l

/-- Python `f"{n:,}"` for a natural number. -/
def fmtComma (n : Nat) : String :=
  String.mk ((groupRev (toString n).data.reverse).reverse)

/-- Python `f"{i:,}"` for an integer. -/
def fmtCommaInt (i : Int) : String :=
  if i < 0 then "-" ++ fmtComma i.natAbs else fmtComma i.natAbs

/-- The terminal message when every row failed (tasks.py 222-231):
total error count, the first 10 error lines, and an
"... and N more errors" suffix when more than 10 errors exist. -/
def failedSummary (errorCount : Int) (errors : List String) : String :=
  let base := "❌ Import Failed - No products were imported\n\n"
    ++ "Total errors: " ++ toString errorCount ++ "\n\n"
    ++ "First " ++ toString (min 10 errors.length) ++ " errors:\n"
    ++ bulleted (errors.take 10)
  if 10 < errors.length then
    base ++ "\n\n... and " ++ toString (errors.length - 10) ++ " more errors"
  else base

/-- The terminal message for a partial success (tasks.py 236-248):
success/created/updated/error counts and the first 5 error lines, with
the same truncation rule at 5. -/
def completedWithErrorsSummary (processed total created updated : Nat)
    (errorCount : Int) (errors : List String) : String :=
  let base := "⚠️ Import completed with errors\n\n"
    ++ "Successfully processed: " ++ fmtComma processed ++ "/"
    ++ fmtComma total ++ " products\n"
    ++ "✓ Created: " ++ fmtComma created ++ "\n"
    ++ "✓ Updated: " ++ fmtComma updated ++ "\n"
    ++ "❌ Errors: " ++ fmtCommaInt errorCount ++ "\n\n"
    ++ "First " ++ toString (min 5 errors.length) ++ " errors:\n"
    ++ bulleted (errors.take 5)
  if 5 < errors.length then
    base ++ "\n\n... and " ++ toString (errors.length - 5) ++ " more errors"
  else base

/-- The schema-failure message (tasks.py 92-97). -/
def schemaErrorMessage (missing cols : List String) : String :=
  "❌ Missing required columns: " ++ String.intercalate ", " missing
  ++ "\n\nRequired columns: sku, name\nFound columns: "
  ++ String.intercalate ", " cols
  ++ "\n\nPlease add the missing columns to your CSV and try again."

/-- The required header fields `['sku', 'name']`. -/
def requiredCols : List String := ["sku", "name"]

/-- Mark a job failed with a message and set its completion timestamp. -/
def failJob (j : Job) (msg : String) : Job :=
  { j with status := .failed, error_message := some msg, completed_at := true }

/-- Outcome of `pd.read_csv`: decode failure, any other parse failure
(with the exception's `str()`), or a dataframe given by its column
headers and rows. -/
inductive ParseResult
  | decodeError
  | parseFailure (msg : String)
  | ok (cols : List String) (rows : List Row)

/-- A registered webhook (models.py). -/
structure Webhook where
  url : String
  event_type : String
  enabled : Bool
deriving DecidableEq, Repr

/-- One delivery attempt made by the dispatcher: the listener's url and
whether the HTTP post succeeded. -/
structure Delivery where
  url : String
  delivered : Bool
deriving DecidableEq, Repr

/-- `trigger_webhooks_sync` (tasks.py 316-350): fetch the enabled
listeners for the event type and post to each in turn; a failing post
(oracle `deliverFails`, indexed by listener position) is logged and the
loop continues with the remaining listeners.  The function never raises
to its caller (it is total) and touches no job record. -/
def trigger_webhooks_sync (event_type : String) (webhooks : List Webhook)
    (deliverFails : Nat → Bool) : List Delivery :=
  let targets := webhooks.filter (fun w => w.event_type == event_type && w.enabled)
  (List.enumFrom 0 targets).map (fun p => { url := p.2.url, delivered := !deliverFails p.1 })

/-- The webhook payload sent on completion (tasks.py 263-278). -/
structure Payload where
  job_id : String
  count : Nat
  created : Nat
  updated : Nat
  errors : Int
deriving DecidableEq, Repr

/-- Environment of one run of `process_csv_import_sync`: whether the
staged file exists, the parse outcome, the guarded-commit failure
oracle, the per-listener delivery failure oracle, the registered
webhooks, and whether `os.remove` of the staged file raises. -/
structure ImportInput where
  fileExists : Bool
  parse : ParseResult
  commitFails : Nat → Option String
  deliverFails : Nat → Bool
  webhooks : List Webhook
  removeFails : Bool

/-- Observable outcome of one run: the sequence of committed job states
(starting from the freshly created job), the final job state, the final
catalog content, the counters, the webhook payload dispatched (if any)
with the resulting delivery attempts, and whether the staged file was
removed. -/
structure ImportResult where
  trace : List Job
  finalJob : Job
  catalog : List Product
  processed : Nat
  created : Nat
  updated : Nat
  errorCount : Int
  errors : List String
  webhookPayload : Option Payload
  deliveries : List Delivery
  fileRemoved : Bool

/-- Terminal classification (tasks.py 220-255), applied to the job as
last committed (`jBase`). -/
def classifyJob (jBase : Job) (total : Nat) (st : LoopState) : Job :=
  if 0 < st.errorCount then
    if st.processed = 0 then
      failJob jBase (failedSummary st.errorCount st.errors)
    else
      { jBase with status := .completedWithErrors
                   error_message := some (completedWithErrorsSummary
                     st.processed total st.created st.updated
                     st.errorCount st.errors)
                   completed_at := true }
  else
    { jBase with status := .completed, error_message := none
                 completed_at := true }

/-- An early-failure result (the `return` paths before row processing):
the job goes `pending → parsing → failed`; no webhook is dispatched and
the staged file is not removed (those statements are only reached after
the row-processing phase). -/
def earlyFailure (j0 j1 : Job) (initCatalog : List Product) (msg : String) :
    ImportResult :=
  let jF := failJob j1 msg
  { trace := [j0, j1, jF], finalJob := jF, catalog := initCatalog
    processed := 0, created := 0, updated := 0, errorCount := 0, errors := []
    webhookPayload := none, deliveries := [], fileRemoved := false }

/-- The job state after the initial "parsing" commit. -/
def parsingJob : Job := { initialJob with status := Status.parsing }

/-- The job state committed together with `total_rows` when row
processing starts (tasks.py 108-110). -/
def importingJob (total : Nat) : Job :=
  { status := .importing, total_rows := total, processed_rows := 0
    error_message := none, completed_at := false }

/-- The chunk loop of one run (tasks.py 112-210), started from the
fresh loop state on the pre-import catalog: returns the final loop
state and the committed progress snapshots. -/
def importLoop (cf : Nat → Option String) (initCatalog : List Product)
    (rows : List Row) : LoopState × List Nat :=
  runChunksGo cf rows rows.length (chunkStarts rows.length)
    ⟨0, 0, 0, 0, [], initCatalog, initCatalog, 0⟩

/-- The loop state after the final leftover commit (tasks.py 214-217):
a commit failure there is only logged (the source does not roll back or
count it), so only the committed-catalog view and the commit index
change. -/
def finalLoopState (cf : Nat → Option String) (initCatalog : List Product)
    (rows : List Row) : LoopState :=
  { (importLoop cf initCatalog rows).1 with
    committed := if (cf (importLoop cf initCatalog rows).1.commitIdx).isSome
      then (importLoop cf initCatalog rows).1.committed
      else (importLoop cf initCatalog rows).1.pending
    commitIdx := (importLoop cf initCatalog rows).1.commitIdx + 1 }

/-- The job states committed at the chunk boundaries (tasks.py
206-207). -/
def importChunkJobs (cf : Nat → Option String) (initCatalog : List Product)
    (rows : List Row) : List Job :=
  (importLoop cf initCatalog rows).2.map
    (fun pr => { importingJob rows.length with processed_rows := pr })

/-- The terminal job state (tasks.py 220-258). -/
def importFinalJob (cf : Nat → Option String) (initCatalog : List Product)
    (rows : List Row) : Job :=
  classifyJob
    ((importChunkJobs cf initCatalog rows).getLastD (importingJob rows.length))
    rows.length (finalLoopState cf initCatalog rows)

/-- Whether the run dispatches webhooks (tasks.py 261): the terminal
status is completed or completed_with_errors. -/
def importWebhookCond (cf : Nat → Option String) (initCatalog : List Product)
    (rows : List Row) : Bool :=
  (importFinalJob cf initCatalog rows).status == Status.completed
    || (importFinalJob cf initCatalog rows).status == Status.completedWithErrors

/-- The row-processing phase and everything after it (tasks.py
108-286), reached once the file exists, the CSV parsed and the schema
check passed: chunked processing, the final leftover commit, terminal
classification, webhook dispatch for the two success statuses, and
removal of the staged file. -/
def importingResult (jobId : String) (initCatalog : List Product)
    (inp : ImportInput) (rows : List Row) : ImportResult :=
  { trace := initialJob :: parsingJob :: importingJob rows.length ::
      (importChunkJobs inp.commitFails initCatalog rows
        ++ [importFinalJob inp.commitFails initCatalog rows])
    finalJob := importFinalJob inp.commitFails initCatalog rows
    catalog := (finalLoopState inp.commitFails initCatalog rows).pending
    processed := (finalLoopState inp.commitFails initCatalog rows).processed
    created := (finalLoopState inp.commitFails initCatalog rows).created
    updated := (finalLoopState inp.commitFails initCatalog rows).updated
    errorCount := (finalLoopState inp.commitFails initCatalog rows).errorCount
    errors := (finalLoopState inp.commitFails initCatalog rows).errors
    webhookPayload :=
      if importWebhookCond inp.commitFails initCatalog rows then
        some ⟨jobId,
          (finalLoopState inp.commitFails initCatalog rows).processed,
          (finalLoopState inp.commitFails initCatalog rows).created,
          (finalLoopState inp.commitFails initCatalog rows).updated,
          (finalLoopState inp.commitFails initCatalog rows).errorCount⟩
      else none
    deliveries :=
      if importWebhookCond inp.commitFails initCatalog rows then
        trigger_webhooks_sync "product.imported" inp.webhooks inp.deliverFails
      else []
    fileRemoved := !inp.removeFails }

/-- `process_csv_import_sync` (tasks.py 32-309) on an existing job, in
the absence of unexpected exceptions (for those see `traceWithFault`).
`initCatalog` is the catalog content before the run. -/
def process_csv_import_sync (jobId filePath : String)
    (initCatalog : List Product) (inp : ImportInput) : ImportResult :=
  let j0 := initialJob
  let j1 := { j0 with status := Status.parsing }
  if inp.fileExists = false then
    earlyFailure j0 j1 initCatalog ("File not found at path: " ++ filePath)
  else
    match inp.parse with
    | .decodeError =>
      earlyFailure j0 j1 initCatalog
        "CSV encoding error. Please save your CSV as UTF-8 and try again."
    | .parseFailure msg =>
      earlyFailure j0 j1 initCatalog
        ("Failed to parse CSV file: " ++ msg
          ++ "\n\nPlease check:\n- File is a valid CSV\n- File is not corrupted\n- File encoding is UTF-8")
    | .ok cols rows =>
      let missing_cols := requiredCols.filter (fun c => !cols.contains c)
      if missing_cols.isEmpty then
        importingResult jobId initCatalog inp rows
      else
        earlyFailure j0 j1 initCatalog (schemaErrorMessage missing_cols cols)

/-- The top-level except handler's message (tasks.py 296-300), from the
exception's `str()` and the traceback text. -/
def fatalMessage (excMsg tb : String) : String :=
  "❌ Fatal Error: " ++ excMsg ++ "\n\nFull error details:\n" ++ tb

/-- The job state written by the top-level except handler. -/
def fatalJob (j : Job) (excMsg tb : String) : Job :=
  { j with status := .failed, error_message := some (fatalMessage excMsg tb)
           completed_at := true }

/-- Committed job states when an unexpected exception escapes the
pipeline after the k-th commit (fault `some (k, excMsg, tb)`): the
normal commit sequence is cut after position k and the top-level
handler commits the job forced to failed.  `none`, or a cut point past
the end, is a run with no unexpected exception. -/
def traceWithFault (jobId filePath : String) (initCatalog : List Product)
    (inp : ImportInput) :
    Option (Nat × String × String) → List Job
  | none => (process_csv_import_sync jobId filePath initCatalog inp).trace
  | some (k, excMsg, tb) =>
    if h : k <
        (process_csv_import_sync jobId filePath initCatalog
          inp).trace.length then
      (process_csv_import_sync jobId filePath initCatalog
          inp).trace.take (k + 1) ++
        [fatalJob ((process_csv_import_sync jobId filePath initCatalog
          inp).trace.get ⟨k, h⟩) excMsg tb]
    else (process_csv_import_sync jobId filePath initCatalog inp).trace

/-- One event of the SSE progress stream (main.py 102-140). -/
inductive ProgressEvent
  | invalidId
  | notFound
  | snapshot (status : Status) (processed total percent : Nat)
      (error : Option String)
deriving DecidableEq, Repr

/-- Whether an emitted event is a snapshot carrying a terminal status. -/
def ProgressEvent.isTerminalSnap : ProgressEvent → Bool
  | .snapshot s _ _ _ _ => s.isTerminal
  | _ => false

/-- The polling loop of `import_progress` (main.py 114-138): up to
`fuel` iterations; each iteration re-reads the job (oracle `lookup`,
indexed by iteration), emits a snapshot and stops once the status is
terminal.  `percent` models `int(processed / total * 100)` by exact
floor division (binary floating-point rounding is not modelled). -/
def pollLoop (lookup : Nat → Option Job) (iter : Nat) :
    Nat → List ProgressEvent
  | 0 => []
  | fuel + 1 =>
    match lookup iter with
    | none => [.notFound]
    | some job =>
      let total := if 0 < job.total_rows then job.total_rows else 1
      let ev := ProgressEvent.snapshot job.status job.processed_rows
        job.total_rows (job.processed_rows * 100 / total) job.error_message
      if job.status.isTerminal then [ev]
      else ev :: pollLoop lookup (iter + 1) fuel

/-- `import_progress` (main.py 102-140): an identifier that is empty or
not of length 36 yields a single invalid-id event with no job lookup;
otherwise the polling loop runs for at most 600 iterations. -/
def import_progress (job_id : String) (lookup : Nat → Option Job) :
    List ProgressEvent :=
  if job_id == "" || job_id.length != 36 then [.invalidId]
  else pollLoop lookup 0 600

/-- The snapshot event emitted for a job state (main.py 122-133). -/
def snapEv (job : Job) : ProgressEvent :=
  .snapshot job.status job.processed_rows job.total_rows
    (job.processed_rows * 100 /
      (if 0 < job.total_rows then job.total_rows else 1))
    job.error_message

/-- One edge of the status graph of the spec: stay in place, jump to
failed from anywhere, or advance pending → parsing → importing →
{completed, completed_with_errors}. -/
def statusStep (s t : Status) : Bool :=
  s == t || t == .failed
    || (s == .pending && t == .parsing)
    || (s == .parsing && t == .importing)
    || (s == .importing && (t == .completed || t == .completedWithErrors))

/-- Edge relation on committed job states. -/
def stepOK (a b : Job) : Bool := statusStep a.status b.status

/-! Helper lemmas -/

/-- Splitting a list at the record found by a case-insensitive sku search. -/
lemma find?_sku_split {l : List Product} {k : String} {p : Product}
    (h : l.find? (fun q => pyLower q.sku == k) = some p) :
    ∃ pre post, l = pre ++ p :: post ∧
      (∀ q ∈ pre, (pyLower q.sku == k) = false) ∧
      (pyLower p.sku == k) = true := by
  induction l with
  | nil => simp at h
  | cons a l ih =>
    by_cases ha : (pyLower a.sku == k) = true
    · simp only [List.find?_cons, ha] at h
      obtain rfl : a = p := by injection h
      exact ⟨[], l, rfl, by simp, ha⟩
    · simp only [List.find?_cons, Bool.eq_false_iff.2 ha] at h
      obtain ⟨pre, post, rfl, hpre, hp⟩ := ih h
      refine ⟨a :: pre, post, rfl, ?_, hp⟩
      intro q hq
      rcases List.mem_cons.1 hq with rfl | hq
      · exact Bool.eq_false_iff.2 ha
      · exact hpre q hq

/-- `updateFirst` rewrites exactly the first matching record. -/
lemma updateFirst_append (k n d : String) (t : Nat)
    (pre post : List Product) (p : Product)
    (hpre : ∀ q ∈ pre, (pyLower q.sku == k) = false)
    (hp : (pyLower p.sku == k) = true) :
    updateFirst k n d t (pre ++ p :: post) =
      pre ++ { p with name := n, description := d, updated_at := some t } :: post := by
  induction pre with
  | nil => simp [updateFirst, hp]
  | cons a pre ih =>
    have ha := hpre a (by simp)
    simp only [List.cons_append, updateFirst, ha, Bool.false_eq_true, if_false,
      List.cons.injEq, true_and]
    exact ih (fun q hq => hpre q (List.mem_cons_of_mem _ hq))

/-- Claim C3: the upsert resolves a row by case-insensitive sku: if a
record is found it is updated in place (name, description, modification
timestamp) and the row counts as updated; otherwise a record is created
with the sku's original casing and counts as created.  Importing two
rows whose skus differ only in case on a catalog with no prior match
creates once then updates, leaving exactly one matching record that
carries the second row's values; the concrete DUP-001 / dup-001 import
produces created = 1, updated = 1 and one record. -/
theorem C3_upsert_case_insensitive (catalog : List Product)
    (sku name description : String) (now : Nat) :
    (catalog.find? (fun p => pyLower p.sku == pyLower sku) = none →
      upsert catalog sku name description now =
        (catalog ++ [⟨sku, name, description, true, none⟩], true))
  ∧ (∀ p, catalog.find? (fun p => pyLower p.sku == pyLower sku) = some p →
      ∃ pre post, catalog = pre ++ p :: post ∧
        (∀ q ∈ pre, (pyLower q.sku == pyLower sku) = false) ∧
        upsert catalog sku name description now =
          (pre ++ (⟨p.sku, name, description, p.active, some now⟩ : Product)
            :: post, false))
  ∧ (∀ sku2 name2 desc2 now2, pyLower sku2 = pyLower sku →
      catalog.find? (fun p => pyLower p.sku == pyLower sku) = none →
      upsert catalog sku name description now =
        (catalog ++ [⟨sku, name, description, true, none⟩], true) ∧
      upsert (catalog ++ [⟨sku, name, description, true, none⟩])
          sku2 name2 desc2 now2 =
        (catalog ++ [⟨sku, name2, desc2, true, some now2⟩], false) ∧
      ((catalog ++ [(⟨sku, name2, desc2, true, some now2⟩ : Product)]).filter
          (fun p => pyLower p.sku == pyLower sku)).length = 1)
  ∧ ((process_csv_import_sync "J" "f.csv" []
        ⟨true, .ok ["sku", "name"]
          [⟨some "DUP-001", some "First", some "Description 1"⟩,
           ⟨some "dup-001", some "Second", some "Description 2"⟩],
          (fun _ => none), (fun _ => false), [], false⟩).created = 1 ∧
      (process_csv_import_sync "J" "f.csv" []
        ⟨true, .ok ["sku", "name"]
          [⟨some "DUP-001", some "First", some "Description 1"⟩,
           ⟨some "dup-001", some "Second", some "Description 2"⟩],
          (fun _ => none), (fun _ => false), [], false⟩).updated = 1 ∧
      (process_csv_import_sync "J" "f.csv" []
        ⟨true, .ok ["sku", "name"]
          [⟨some "DUP-001", some "First", some "Description 1"⟩,
           ⟨some "dup-001", some "Second", some "Description 2"⟩],
          (fun _ => none), (fun _ => false), [], false⟩).catalog =
        [⟨"DUP-001", "Second", "Description 2", true, some 1⟩]) := by
  refine ⟨?_, ?_, ?_, by decide, by decide, by decide⟩
  · intro h
    simp [upsert, h]
  · intro p h
    obtain ⟨pre, post, rfl, hpre, hp⟩ := find?_sku_split h
    refine ⟨pre, post, rfl, hpre, ?_⟩
    rw [upsert, h,
      updateFirst_append (pyLower sku) name description now pre post p hpre hp]
  · intro sku2 name2 desc2 now2 hlow h
    have hnew : (pyLower (⟨sku, name, description, true, none⟩ : Product).sku
        == pyLower sku2) = true := by
      simp [hlow]
    have hnone2 : catalog.find? (fun p => pyLower p.sku == pyLower sku2) = none := by
      rw [List.find?_eq_none] at h ⊢
      intro x hx
      rw [hlow]
      exact h x hx
    have hfind2 : (catalog ++ [(⟨sku, name, description, true, none⟩ : Product)]).find?
        (fun p => pyLower p.sku == pyLower sku2) =
          some ⟨sku, name, description, true, none⟩ := by
      rw [List.find?_append, hnone2]
      simp [hnew]
    have hpre : ∀ q ∈ catalog, (pyLower q.sku == pyLower sku2) = false := by
      intro q hq
      have := (List.find?_eq_none.1 hnone2) q hq
      exact Bool.eq_false_iff.2 this
    refine ⟨by simp [upsert, h], ?_, ?_⟩
    · rw [upsert, hfind2]
      rw [updateFirst_append (pyLower sku2) name2 desc2 now2 catalog []
        ⟨sku, name, description, true, none⟩ hpre hnew]
    · rw [List.filter_append]
      have hcat : catalog.filter (fun p => pyLower p.sku == pyLower sku) = [] := by
        rw [List.filter_eq_nil_iff]
        exact List.find?_eq_none.1 h
      simp [hcat, hlow]

/-- Witness for C3 at a concrete input: a catalog with one non-matching
record, first row AB-1, second row ab-1. -/
theorem C3_witness :
    (upsert [⟨"Z-9", "Zed", "", true, none⟩] "AB-1" "N1" "D1" 0 =
      ([⟨"Z-9", "Zed", "", true, none⟩, ⟨"AB-1", "N1", "D1", true, none⟩], true))
  ∧ (upsert [⟨"Z-9", "Zed", "", true, none⟩, ⟨"AB-1", "N1", "D1", true, none⟩]
      "ab-1" "N2" "D2" 1 =
      ([⟨"Z-9", "Zed", "", true, none⟩, ⟨"AB-1", "N2", "D2", true, some 1⟩],
        false)) := by
  have h := (C3_upsert_case_insensitive
    [⟨"Z-9", "Zed", "", true, none⟩] "AB-1" "N1" "D1" 0).2.2.1
    "ab-1" "N2" "D2" 1 (by decide) (by decide)
  exact ⟨h.1, h.2.1⟩

/-- Claim C5: per-row validation.  The trimmed sku is rejected exactly
when it is empty or a null token, with the error line naming row
idx + 2; the trimmed name is rejected (naming the row's sku) exactly
when the sku was valid and the name is empty or a null token; a row is
accepted exactly when both are valid, yielding the trimmed fields with
a missing/null description mapped to the empty string; and rejected
rows are recorded as one error and not persisted. -/
theorem C5_row_validation (idx : Nat) (row : Row) :
    (validateRow idx row =
        .errSku ("Row " ++ toString (idx + 2) ++ ": Empty or invalid SKU")
      ↔ invalidValue (pyStrip (pyStr row.sku)) = true)
  ∧ (validateRow idx row =
        .errName ("Row " ++ toString (idx + 2) ++ " (SKU: "
          ++ pyStrip (pyStr row.sku) ++ "): Missing or invalid product name")
      ↔ (invalidValue (pyStrip (pyStr row.sku)) = false ∧
         invalidValue (pyStrip (pyStr row.name)) = true))
  ∧ (validateRow idx row =
        .ok (pyStrip (pyStr row.sku)) (pyStrip (pyStr row.name)) (descOf row)
      ↔ (invalidValue (pyStrip (pyStr row.sku)) = false ∧
         invalidValue (pyStrip (pyStr row.name)) = false))
  ∧ descOf { row with description := none } = ""
  ∧ (∀ fail st msg, validateRow idx row = .errSku msg ∨
        validateRow idx row = .errName msg →
      processRow fail st idx row =
        { st with errors := st.errors ++ [msg]
                  errorCount := st.errorCount + 1 }) := by
  refine ⟨?_, ?_, ?_, rfl, ?_⟩
  · cases hs : invalidValue (pyStrip (pyStr row.sku))
    · simp only [validateRow, hs, Bool.false_eq_true, if_false]
      cases hn : invalidValue (pyStrip (pyStr row.name)) <;> simp [hn]
    · simp [validateRow, hs]
  · cases hs : invalidValue (pyStrip (pyStr row.sku))
    · simp only [validateRow, hs, Bool.false_eq_true, if_false]
      cases hn : invalidValue (pyStrip (pyStr row.name)) <;> simp [hn]
    · simp [validateRow, hs]
  · cases hs : invalidValue (pyStrip (pyStr row.sku))
    · simp only [validateRow, hs, Bool.false_eq_true, if_false]
      cases hn : invalidValue (pyStrip (pyStr row.name)) <;> simp [hn]
    · simp [validateRow, hs]
  · intro fail st msg h
    rcases h with h | h <;> simp [processRow, h]

/-- Witness for C5 at concrete rows: a NaN sku is rejected as row 2
with no persistence, a valid row with missing description is accepted
with an empty description. -/
theorem C5_witness :
    (validateRow 0 ⟨none, some "x", none⟩ = .errSku "Row 2: Empty or invalid SKU")
  ∧ (processRow (fun _ => none) ⟨0, 0, 0, 0, [], [], [], 0⟩ 0
      ⟨none, some "x", none⟩ =
      ⟨0, 0, 0, 1, ["Row 2: Empty or invalid SKU"], [], [], 0⟩)
  ∧ (validateRow 3 ⟨some " A-1 ", some "Apple", none⟩ =
      .ok "A-1" "Apple" "") := by
  refine ⟨?_, ?_, ?_⟩
  · exact ((C5_row_validation 0 ⟨none, some "x", none⟩).1).2 (by decide)
  · have h := (C5_row_validation 0 ⟨none, some "x", none⟩).2.2.2.2
      (fun _ => none) ⟨0, 0, 0, 0, [], [], [], 0⟩
      "Row 2: Empty or invalid SKU" (Or.inl (by decide))
    simpa using h
  · exact ((C5_row_validation 3 ⟨some " A-1 ", some "Apple", none⟩).2.2.1).2
      (by decide)

/-! Branch bridges -/

/-- A run whose file exists, parses, and passes the schema check is the
row-processing phase. -/
lemma process_eq_importing (jobId filePath : String)
    (initCatalog : List Product) (cf : Nat → Option String)
    (dlv : Nat → Bool) (whs : List Webhook) (rf : Bool)
    (cols : List String) (rows : List Row)
    (hm : (requiredCols.filter (fun c => !cols.contains c)).isEmpty = true) :
    process_csv_import_sync jobId filePath initCatalog
        ⟨true, .ok cols rows, cf, dlv, whs, rf⟩ =
      importingResult jobId initCatalog
        ⟨true, .ok cols rows, cf, dlv, whs, rf⟩ rows := by
  show (if (requiredCols.filter (fun c => !cols.contains c)).isEmpty = true
      then importingResult jobId initCatalog
        ⟨true, .ok cols rows, cf, dlv, whs, rf⟩ rows
      else earlyFailure initialJob parsingJob initCatalog
        (schemaErrorMessage (requiredCols.filter (fun c => !cols.contains c))
          cols)) =
    importingResult jobId initCatalog
      ⟨true, .ok cols rows, cf, dlv, whs, rf⟩ rows
  rw [if_pos hm]

/-- A run whose schema check fails is an early failure with the schema
message. -/
lemma process_eq_schema (jobId filePath : String)
    (initCatalog : List Product) (cf : Nat → Option String)
    (dlv : Nat → Bool) (whs : List Webhook) (rf : Bool)
    (cols : List String) (rows : List Row)
    (hm : (requiredCols.filter (fun c => !cols.contains c)).isEmpty = false) :
    process_csv_import_sync jobId filePath initCatalog
        ⟨true, .ok cols rows, cf, dlv, whs, rf⟩ =
      earlyFailure initialJob parsingJob initCatalog
        (schemaErrorMessage (requiredCols.filter (fun c => !cols.contains c))
          cols) := by
  show (if (requiredCols.filter (fun c => !cols.contains c)).isEmpty = true
      then importingResult jobId initCatalog
        ⟨true, .ok cols rows, cf, dlv, whs, rf⟩ rows
      else earlyFailure initialJob parsingJob initCatalog
        (schemaErrorMessage (requiredCols.filter (fun c => !cols.contains c))
          cols)) =
    earlyFailure initialJob parsingJob initCatalog
      (schemaErrorMessage (requiredCols.filter (fun c => !cols.contains c))
        cols)
  rw [if_neg]
  intro hc
  rw [hc] at hm
  exact absurd hm (by decide)

/-- Header hypotheses give an empty missing-column list. -/
lemma missing_isEmpty (cols : List String)
    (h1 : "sku" ∈ cols) (h2 : "name" ∈ cols) :
    (requiredCols.filter (fun c => !cols.contains c)).isEmpty = true := by
  simp [requiredCols, h1, h2]

/-! Counter bookkeeping: processed = created + updated -/

/-- The every-50-rows checkpoint does not touch the row counters. -/
lemma maybeCommit_counts (fail : Nat → Option String) (st : LoopState)
    (idx : Nat) :
    (maybeCommit fail st idx).processed = st.processed ∧
    (maybeCommit fail st idx).created = st.created ∧
    (maybeCommit fail st idx).updated = st.updated := by
  unfold maybeCommit
  split
  · split <;> exact ⟨rfl, rfl, rfl⟩
  · exact ⟨rfl, rfl, rfl⟩

/-- One row preserves `processed = created + updated`. -/
lemma processRow_inv (fail : Nat → Option String) (st : LoopState)
    (idx : Nat) (row : Row) (h : st.processed = st.created + st.updated) :
    (processRow fail st idx row).processed =
      (processRow fail st idx row).created +
        (processRow fail st idx row).updated := by
  unfold processRow
  cases validateRow idx row with
  | errSku msg => exact h
  | errName msg => exact h
  | ok sku name description =>
    simp only
    obtain ⟨h1, h2, h3⟩ := maybeCommit_counts fail
      { st with
        pending := (upsert st.pending sku name description idx).1
        created := st.created +
          (if (upsert st.pending sku name description idx).2 then 1 else 0)
        updated := st.updated +
          (if (upsert st.pending sku name description idx).2 then 0 else 1)
        processed := st.processed + 1 } idx
    rw [h1, h2, h3]
    simp only
    cases (upsert st.pending sku name description idx).2 <;> simp <;> omega

/-- The inner row loop preserves `processed = created + updated`. -/
lemma foldRows_inv (fail : Nat → Option String) (l : List (Nat × Row)) :
    ∀ st : LoopState, st.processed = st.created + st.updated →
      (l.foldl (fun s p => processRow fail s p.1 p.2) st).processed =
        (l.foldl (fun s p => processRow fail s p.1 p.2) st).created +
          (l.foldl (fun s p => processRow fail s p.1 p.2) st).updated := by
  induction l with
  | nil => intro st h; exact h
  | cons a l ih =>
    intro st h
    exact ih _ (processRow_inv fail st a.1 a.2 h)

/-- A whole chunk preserves `processed = created + updated`. -/
lemma processChunk_inv (fail : Nat → Option String) (st : LoopState)
    (i : Nat) (chunk : List Row)
    (h : st.processed = st.created + st.updated) :
    (processChunk fail st i chunk).processed =
      (processChunk fail st i chunk).created +
        (processChunk fail st i chunk).updated := by
  have h1 := foldRows_inv fail (List.enumFrom i chunk) st h
  unfold processChunk
  cases hfc : fail ((List.enumFrom i chunk).foldl
      (fun s p => processRow fail s p.1 p.2) st).commitIdx <;>
    simp only [hfc] <;> exact h1

/-- The chunk loop preserves `processed = created + updated`. -/
lemma runChunksGo_inv (fail : Nat → Option String) (df : List Row)
    (total : Nat) (starts : List Nat) :
    ∀ st : LoopState, st.processed = st.created + st.updated →
      (runChunksGo fail df total starts st).1.processed =
        (runChunksGo fail df total starts st).1.created +
          (runChunksGo fail df total starts st).1.updated := by
  induction starts with
  | nil => intro st h; exact h
  | cons i rest ih =>
    intro st h
    exact ih _ (processChunk_inv fail st i ((df.drop i).take 100) h)

/-- The counter identity for the row-processing phase. -/
lemma importingResult_inv (jobId : String) (initCatalog : List Product)
    (inp : ImportInput) (rows : List Row) :
    (importingResult jobId initCatalog inp rows).processed =
      (importingResult jobId initCatalog inp rows).created +
        (importingResult jobId initCatalog inp rows).updated :=
  runChunksGo_inv inp.commitFails rows rows.length (chunkStarts rows.length)
    ⟨0, 0, 0, 0, [], initCatalog, initCatalog, 0⟩ rfl

/-- The final leftover commit does not change the counters, the error
list or the session view. -/
lemma finalLoopState_fields (cf : Nat → Option String)
    (initCatalog : List Product) (rows : List Row) :
    (finalLoopState cf initCatalog rows).processed =
        (importLoop cf initCatalog rows).1.processed ∧
    (finalLoopState cf initCatalog rows).created =
        (importLoop cf initCatalog rows).1.created ∧
    (finalLoopState cf initCatalog rows).updated =
        (importLoop cf initCatalog rows).1.updated ∧
    (finalLoopState cf initCatalog rows).errorCount =
        (importLoop cf initCatalog rows).1.errorCount ∧
    (finalLoopState cf initCatalog rows).errors =
        (importLoop cf initCatalog rows).1.errors ∧
    (finalLoopState cf initCatalog rows).pending =
        (importLoop cf initCatalog rows).1.pending :=
  ⟨rfl, rfl, rfl, rfl, rfl, rfl⟩

/-- Claim C10: throughout every run the successfully-processed count is
the sum of the created and updated counts (each successful row is
counted as exactly one of created/updated, rejected rows as neither);
consequently the run result satisfies processed = created + updated,
and a dispatched webhook payload has count = created + updated. -/
theorem C10_processed_eq_created_add_updated (jobId filePath : String)
    (initCatalog : List Product) (inp : ImportInput) :
    ((process_csv_import_sync jobId filePath initCatalog inp).processed =
      (process_csv_import_sync jobId filePath initCatalog inp).created +
        (process_csv_import_sync jobId filePath initCatalog inp).updated)
  ∧ (∀ fail st idx row, st.processed = st.created + st.updated →
      (processRow fail st idx row).processed =
        (processRow fail st idx row).created +
          (processRow fail st idx row).updated)
  ∧ (∀ p, (process_csv_import_sync jobId filePath initCatalog inp).webhookPayload
        = some p → p.count = p.created + p.updated) := by
  obtain ⟨fe, parse, cf, dlv, whs, rf⟩ := inp
  refine ⟨?_, fun fail st idx row h => processRow_inv fail st idx row h, ?_⟩
  · cases fe with
    | false => rfl
    | true =>
      cases parse with
      | decodeError => rfl
      | parseFailure msg => rfl
      | ok cols rows =>
        by_cases hm : (requiredCols.filter (fun c => !cols.contains c)).isEmpty
        · rw [process_eq_importing jobId filePath initCatalog cf dlv whs rf
            cols rows hm]
          exact importingResult_inv jobId initCatalog _ rows
        · rw [process_eq_schema jobId filePath initCatalog cf dlv whs rf
            cols rows (Bool.eq_false_iff.2 hm)]
          rfl
  · intro p hp
    cases fe with
    | false => simp [process_csv_import_sync, earlyFailure] at hp
    | true =>
      cases parse with
      | decodeError => simp [process_csv_import_sync, earlyFailure] at hp
      | parseFailure msg => simp [process_csv_import_sync, earlyFailure] at hp
      | ok cols rows =>
        by_cases hm : (requiredCols.filter (fun c => !cols.contains c)).isEmpty
        · rw [process_eq_importing jobId filePath initCatalog cf dlv whs rf
            cols rows hm] at hp
          have hinv := importingResult_inv jobId initCatalog
            ⟨true, .ok cols rows, cf, dlv, whs, rf⟩ rows
          unfold importingResult at hp hinv
          simp only at hp hinv
          split at hp
          · simp only [Option.some.injEq] at hp
            subst hp
            exact hinv
          · simp at hp
        · rw [process_eq_schema jobId filePath initCatalog cf dlv whs rf
            cols rows (Bool.eq_false_iff.2 hm)] at hp
          simp [earlyFailure] at hp

/-! Progress stream -/

/-- The polling loop emits at most `fuel` events. -/
lemma pollLoop_length (fuel : Nat) :
    ∀ (lookup : Nat → Option Job) (iter : Nat),
      (pollLoop lookup iter fuel).length ≤ fuel := by
  induction fuel with
  | zero => intro lookup iter; simp [pollLoop]
  | succ fuel ih =>
    intro lookup iter
    unfold pollLoop
    cases lookup iter with
    | none => simp
    | some job =>
      by_cases hterm : job.status.isTerminal = true
      · simp [hterm]
      · simp only [hterm, if_false, List.length_cons]
        exact Nat.succ_le_succ (ih lookup (iter + 1))

/-- Unfolding `pollLoop` when the job is not found. -/
lemma pollLoop_succ_none (lookup : Nat → Option Job) (iter fuel : Nat)
    (hlk : lookup iter = none) :
    pollLoop lookup iter (fuel + 1) = [.notFound] := by
  simp only [pollLoop, hlk]

/-- Unfolding `pollLoop` when the job is found. -/
lemma pollLoop_succ_some (lookup : Nat → Option Job) (iter fuel : Nat)
    (job : Job) (hlk : lookup iter = some job) :
    pollLoop lookup iter (fuel + 1) =
      if job.status.isTerminal then [snapEv job]
      else snapEv job :: pollLoop lookup (iter + 1) fuel := by
  simp only [pollLoop, hlk, snapEv]

/-- A terminal-status snapshot is only ever the last emitted event. -/
lemma pollLoop_terminal_last (fuel : Nat) :
    ∀ (lookup : Nat → Option Job) (iter : Nat)
      (pre post : List ProgressEvent) (e : ProgressEvent),
      pollLoop lookup iter fuel = pre ++ e :: post →
      e.isTerminalSnap = true → post = [] := by
  induction fuel with
  | zero =>
    intro lookup iter pre post e h _
    have := congrArg List.length h
    simp [pollLoop] at this
    omega
  | succ fuel ih =>
    intro lookup iter pre post e h hterm
    cases hlk : lookup iter with
    | none =>
      rw [pollLoop_succ_none lookup iter fuel hlk] at h
      have := congrArg List.length h
      simp at this
      exact List.eq_nil_of_length_eq_zero (by omega)
    | some job =>
      rw [pollLoop_succ_some lookup iter fuel job hlk] at h
      by_cases hst : job.status.isTerminal = true
      · rw [if_pos hst] at h
        have := congrArg List.length h
        simp at this
        exact List.eq_nil_of_length_eq_zero (by omega)
      · rw [if_neg hst] at h
        cases pre with
        | nil =>
          simp only [List.nil_append, List.cons.injEq] at h
          obtain ⟨rfl, _⟩ := h
          simp only [ProgressEvent.isTerminalSnap, snapEv] at hterm
          exact absurd hterm hst
        | cons q pre =>
          simp only [List.cons_append, List.cons.injEq] at h
          exact ih lookup (iter + 1) pre post e h.2 hterm

/-- Claim C9: a progress query whose identifier is empty or not of
length 36 yields the single terminal "invalid" event, independently of
the job store (no lookup is performed); for any other identifier the
stream has at most 600 events and a snapshot carrying a terminal
status only ever appears as the final event, so the subscription ends
as soon as one is observed. -/
theorem C9_progress_stream (job_id : String) (lookup : Nat → Option Job) :
    ((job_id == "" || job_id.length != 36) = true →
      import_progress job_id lookup = [.invalidId] ∧
      ∀ lookup2, import_progress job_id lookup2 =
        import_progress job_id lookup)
  ∧ ((job_id == "" || job_id.length != 36) = false →
      (import_progress job_id lookup).length ≤ 600 ∧
      ∀ (pre post : List ProgressEvent) (e : ProgressEvent),
        import_progress job_id lookup = pre ++ e :: post →
        e.isTerminalSnap = true → post = []) := by
  constructor
  · intro hbad
    constructor
    · simp [import_progress, hbad]
    · intro lookup2
      simp [import_progress, hbad]
  · intro hgood
    have heq : import_progress job_id lookup = pollLoop lookup 0 600 := by
      simp [import_progress, hgood]
    rw [heq]
    exact ⟨pollLoop_length 600 lookup 0,
      fun pre post e h ht => pollLoop_terminal_last 600 lookup 0 pre post e h ht⟩

/-- Witness for C9: a malformed identifier gives the single invalid
event; a well-formed identifier over a store whose job turns terminal
at the second read gives a bounded stream in which the terminal
snapshot is the last event. -/
theorem C9_witness :
    (import_progress "short" (fun _ => none) = [.invalidId])
  ∧ ((import_progress "123456789012345678901234567890123456"
      (fun n => if n == 0 then some (importingJob 4)
        else some ⟨.completed, 4, 4, none, true⟩)).length ≤ 600)
  ∧ ((import_progress "123456789012345678901234567890123456"
      (fun n => if n == 0 then some (importingJob 4)
        else some ⟨.completed, 4, 4, none, true⟩)) =
      [.snapshot .importing 0 4 0 none] ++
        ProgressEvent.snapshot .completed 4 4 100 none :: [] →
      (ProgressEvent.snapshot .completed 4 4 100 none).isTerminalSnap = true →
      ([] : List ProgressEvent) = []) := by
  refine ⟨?_, ?_, ?_⟩
  · exact ((C9_progress_stream "short" (fun _ => none)).1 (by decide)).1
  · exact ((C9_progress_stream "123456789012345678901234567890123456"
      (fun n => if n == 0 then some (importingJob 4)
        else some ⟨.completed, 4, 4, none, true⟩)).2 (by decide)).1
  · exact fun h ht => ((C9_progress_stream "123456789012345678901234567890123456"
      (fun n => if n == 0 then some (importingJob 4)
        else some ⟨.completed, 4, 4, none, true⟩)).2 (by decide)).2
      [.snapshot .importing 0 4 0 none] [] (.snapshot .completed 4 4 100 none)
      h ht

/-! Terminal classification -/

/-- Case analysis of `classifyJob`, mirroring tasks.py 220-255. -/
lemma classifyJob_spec (jBase : Job) (total : Nat) (st : LoopState) :
    (0 < st.errorCount → st.processed = 0 →
      (classifyJob jBase total st).status = .failed ∧
      (classifyJob jBase total st).error_message =
        some (failedSummary st.errorCount st.errors))
  ∧ (0 < st.errorCount → st.processed ≠ 0 →
      (classifyJob jBase total st).status = .completedWithErrors ∧
      (classifyJob jBase total st).error_message =
        some (completedWithErrorsSummary st.processed total st.created
          st.updated st.errorCount st.errors))
  ∧ (¬ 0 < st.errorCount →
      (classifyJob jBase total st).status = .completed ∧
      (classifyJob jBase total st).error_message = none) := by
  unfold classifyJob
  by_cases h1 : 0 < st.errorCount
  · by_cases h2 : st.processed = 0
    · rw [if_pos h1, if_pos h2]
      exact ⟨fun _ _ => ⟨rfl, rfl⟩, fun _ hne => absurd h2 hne,
        fun hn => absurd h1 hn⟩
    · rw [if_pos h1, if_neg h2]
      exact ⟨fun _ hz => absurd hz h2, fun _ _ => ⟨rfl, rfl⟩,
        fun hn => absurd h1 hn⟩
  · rw [if_neg h1]
    exact ⟨fun hc _ => absurd hc h1, fun hc _ => absurd hc h1,
      fun _ => ⟨rfl, rfl⟩⟩

/-- Claim C1: a run that reaches the row-processing phase classifies its
terminal status from the error and success counters: `failed` with the
failed summary (total error count, first 10 error lines, "... and N
more errors" suffix past 10) when errors occurred and no row succeeded;
`completed_with_errors` with the partial summary (success/created/
updated/error counts, first 5 error lines, same truncation at 5) when
errors occurred but some row succeeded; `completed` with no error
message when the error count is not positive. -/
theorem C1_terminal_classification (jobId filePath : String)
    (initCatalog : List Product) (inp : ImportInput)
    (cols : List String) (rows : List Row)
    (hfe : inp.fileExists = true) (hp : inp.parse = .ok cols rows)
    (h1 : "sku" ∈ cols) (h2 : "name" ∈ cols) :
    (0 < (process_csv_import_sync jobId filePath initCatalog inp).errorCount →
      (process_csv_import_sync jobId filePath initCatalog inp).processed = 0 →
      (process_csv_import_sync jobId filePath initCatalog
          inp).finalJob.status = .failed ∧
      (process_csv_import_sync jobId filePath initCatalog
          inp).finalJob.error_message = some (failedSummary
        (process_csv_import_sync jobId filePath initCatalog inp).errorCount
        (process_csv_import_sync jobId filePath initCatalog inp).errors))
  ∧ (0 < (process_csv_import_sync jobId filePath initCatalog inp).errorCount →
      (process_csv_import_sync jobId filePath initCatalog inp).processed ≠ 0 →
      (process_csv_import_sync jobId filePath initCatalog
          inp).finalJob.status = .completedWithErrors ∧
      (process_csv_import_sync jobId filePath initCatalog
          inp).finalJob.error_message = some (completedWithErrorsSummary
        (process_csv_import_sync jobId filePath initCatalog inp).processed
        rows.length
        (process_csv_import_sync jobId filePath initCatalog inp).created
        (process_csv_import_sync jobId filePath initCatalog inp).updated
        (process_csv_import_sync jobId filePath initCatalog inp).errorCount
        (process_csv_import_sync jobId filePath initCatalog inp).errors))
  ∧ (¬ 0 < (process_csv_import_sync jobId filePath initCatalog
        inp).errorCount →
      (process_csv_import_sync jobId filePath initCatalog
          inp).finalJob.status = .completed ∧
      (process_csv_import_sync jobId filePath initCatalog
          inp).finalJob.error_message = none) := by
  obtain ⟨fe, parse, cf, dlv, whs, rf⟩ := inp
  have hfe2 : fe = true := hfe
  subst hfe2
  have hp2 : parse = .ok cols rows := hp
  subst hp2
  rw [process_eq_importing jobId filePath initCatalog cf dlv whs rf cols rows
    (missing_isEmpty cols h1 h2)]
  exact classifyJob_spec
    ((importChunkJobs cf initCatalog rows).getLastD (importingJob rows.length))
    rows.length (finalLoopState cf initCatalog rows)

/-- Witness for C1: a single-row CSV whose sku cell is null yields the
failed classification with the failed summary. -/
theorem C1_witness :
    (process_csv_import_sync "J" "f.csv" []
        ⟨true, .ok ["sku", "name"] [⟨none, some "x", none⟩],
          (fun _ => none), (fun _ => false), [], false⟩).finalJob.status
        = .failed ∧
    (process_csv_import_sync "J" "f.csv" []
        ⟨true, .ok ["sku", "name"] [⟨none, some "x", none⟩],
          (fun _ => none), (fun _ => false), [], false⟩).finalJob.error_message
      = some (failedSummary
        (process_csv_import_sync "J" "f.csv" []
          ⟨true, .ok ["sku", "name"] [⟨none, some "x", none⟩],
            (fun _ => none), (fun _ => false), [], false⟩).errorCount
        (process_csv_import_sync "J" "f.csv" []
          ⟨true, .ok ["sku", "name"] [⟨none, some "x", none⟩],
            (fun _ => none), (fun _ => false), [], false⟩).errors) :=
  (C1_terminal_classification "J" "f.csv" []
    ⟨true, .ok ["sku", "name"] [⟨none, some "x", none⟩],
      (fun _ => none), (fun _ => false), [], false⟩
    ["sku", "name"] [⟨none, some "x", none⟩]
    rfl rfl (by decide) (by decide)).1 (by decide) (by decide)

/-! Webhook dispatch -/

/-- The dispatcher attempts every target in order, whatever the
per-listener outcomes. -/
lemma enumFrom_deliveries_url (dfail : Nat → Bool) :
    ∀ (l : List Webhook) (n : Nat),
      ((List.enumFrom n l).map
        (fun p => (⟨p.2.url, !dfail p.1⟩ : Delivery))).map Delivery.url =
        l.map Webhook.url := by
  intro l
  induction l with
  | nil => intro n; rfl
  | cons w l ih =>
    intro n
    simp only [List.enumFrom, List.map_cons, List.cons.injEq]
    exact ⟨trivial, ih (n + 1)⟩

/-- Claim C8: the webhook payload `{job_id, count, created, updated,
errors}` is handed to the dispatcher exactly when the terminal status
is completed or completed_with_errors (never for failed); the
dispatcher attempts delivery to every enabled listener of the event
type regardless of individual failures (it is a total function, so a
failing listener cannot raise or cancel the rest); and neither the
committed job states nor the terminal job depend on the delivery
outcomes. -/
theorem C8_webhook_dispatch (jobId filePath : String)
    (initCatalog : List Product) (inp : ImportInput)
    (event : String) (whs2 : List Webhook) (dfail g : Nat → Bool) :
    ((process_csv_import_sync jobId filePath initCatalog inp).webhookPayload =
      if (process_csv_import_sync jobId filePath initCatalog
            inp).finalJob.status == Status.completed
          || (process_csv_import_sync jobId filePath initCatalog
            inp).finalJob.status == Status.completedWithErrors then
        some ⟨jobId,
          (process_csv_import_sync jobId filePath initCatalog inp).processed,
          (process_csv_import_sync jobId filePath initCatalog inp).created,
          (process_csv_import_sync jobId filePath initCatalog inp).updated,
          (process_csv_import_sync jobId filePath initCatalog inp).errorCount⟩
      else none)
  ∧ ((process_csv_import_sync jobId filePath initCatalog inp).deliveries =
      if (process_csv_import_sync jobId filePath initCatalog
            inp).finalJob.status == Status.completed
          || (process_csv_import_sync jobId filePath initCatalog
            inp).finalJob.status == Status.completedWithErrors then
        trigger_webhooks_sync "product.imported" inp.webhooks inp.deliverFails
      else [])
  ∧ ((trigger_webhooks_sync event whs2 dfail).map Delivery.url =
      (whs2.filter (fun w => w.event_type == event && w.enabled)).map
        Webhook.url)
  ∧ ((process_csv_import_sync jobId filePath initCatalog
        { inp with deliverFails := g }).trace =
      (process_csv_import_sync jobId filePath initCatalog inp).trace)
  ∧ ((process_csv_import_sync jobId filePath initCatalog
        { inp with deliverFails := g }).finalJob =
      (process_csv_import_sync jobId filePath initCatalog inp).finalJob) := by
  obtain ⟨fe, parse, cf, dlv, whs, rf⟩ := inp
  refine ⟨?_, ?_, ?_, ?_, ?_⟩
  · cases fe with
    | false => rfl
    | true =>
      cases parse with
      | decodeError => rfl
      | parseFailure msg => rfl
      | ok cols rows =>
        by_cases hm : (requiredCols.filter (fun c => !cols.contains c)).isEmpty
        · rw [process_eq_importing jobId filePath initCatalog cf dlv whs rf
            cols rows hm]
          rfl
        · rw [process_eq_schema jobId filePath initCatalog cf dlv whs rf
            cols rows (Bool.eq_false_iff.2 hm)]
          rfl
  · cases fe with
    | false => rfl
    | true =>
      cases parse with
      | decodeError => rfl
      | parseFailure msg => rfl
      | ok cols rows =>
        by_cases hm : (requiredCols.filter (fun c => !cols.contains c)).isEmpty
        · rw [process_eq_importing jobId filePath initCatalog cf dlv whs rf
            cols rows hm]
          rfl
        · rw [process_eq_schema jobId filePath initCatalog cf dlv whs rf
            cols rows (Bool.eq_false_iff.2 hm)]
          rfl
  · unfold trigger_webhooks_sync
    exact enumFrom_deliveries_url dfail
      (whs2.filter (fun w => w.event_type == event && w.enabled)) 0
  · cases fe with
    | false => rfl
    | true =>
      cases parse with
      | decodeError => rfl
      | parseFailure msg => rfl
      | ok cols rows =>
        by_cases hm : (requiredCols.filter (fun c => !cols.contains c)).isEmpty
        · rw [process_eq_importing jobId filePath initCatalog cf g whs rf
            cols rows hm,
            process_eq_importing jobId filePath initCatalog cf dlv whs rf
            cols rows hm]
          rfl
        · rw [process_eq_schema jobId filePath initCatalog cf g whs rf
            cols rows (Bool.eq_false_iff.2 hm),
            process_eq_schema jobId filePath initCatalog cf dlv whs rf
            cols rows (Bool.eq_false_iff.2 hm)]
  · cases fe with
    | false => rfl
    | true =>
      cases parse with
      | decodeError => rfl
      | parseFailure msg => rfl
      | ok cols rows =>
        by_cases hm : (requiredCols.filter (fun c => !cols.contains c)).isEmpty
        · rw [process_eq_importing jobId filePath initCatalog cf g whs rf
            cols rows hm,
            process_eq_importing jobId filePath initCatalog cf dlv whs rf
            cols rows hm]
          rfl
        · rw [process_eq_schema jobId filePath initCatalog cf g whs rf
            cols rows (Bool.eq_false_iff.2 hm),
            process_eq_schema jobId filePath initCatalog cf dlv whs rf
            cols rows (Bool.eq_false_iff.2 hm)]

/-! Progress values -/

/-- Classification keeps the progress and total counters of the job it
decorates. -/
lemma classifyJob_rows (jBase : Job) (total : Nat) (st : LoopState) :
    (classifyJob jBase total st).processed_rows = jBase.processed_rows ∧
    (classifyJob jBase total st).total_rows = jBase.total_rows := by
  unfold classifyJob failJob
  by_cases h1 : 0 < st.errorCount
  · by_cases h2 : st.processed = 0
    · rw [if_pos h1, if_pos h2]
      exact ⟨rfl, rfl⟩
    · rw [if_pos h1, if_neg h2]
      exact ⟨rfl, rfl⟩
  · rw [if_neg h1]
    exact ⟨rfl, rfl⟩

/-- The chunk loop records exactly the snapshots
`min(chunk_start + 100, total)`, one per chunk. -/
lemma runChunksGo_snd (fail : Nat → Option String) (df : List Row)
    (total : Nat) :
    ∀ (starts : List Nat) (st : LoopState),
      (runChunksGo fail df total starts st).2 =
        starts.map (fun i => min (i + 100) total) := by
  intro starts
  induction starts with
  | nil => intro st; rfl
  | cons i rest ih =>
    intro st
    simp only [runChunksGo, List.map_cons]
    rw [ih]

/-- The snapshots are sorted. -/
lemma importLoop_snd_sorted (cf : Nat → Option String)
    (initCatalog : List Product) (rows : List Row) :
    List.Chain' (· ≤ ·) (importLoop cf initCatalog rows).2 := by
  rw [importLoop, runChunksGo_snd cf rows rows.length (chunkStarts rows.length),
    chunkStarts, List.map_map]
  refine List.Pairwise.chain' ?_
  refine (List.pairwise_lt_range _).map _ ?_
  intro a b hab
  simp only [Function.comp]
  have := Nat.mul_le_mul_right 100 (Nat.le_of_lt hab)
  exact min_le_min (by omega) le_rfl

/-- Every chunk snapshot is bounded by the total. -/
lemma importChunkJobs_bound (cf : Nat → Option String)
    (initCatalog : List Product) (rows : List Row) :
    ∀ q ∈ importChunkJobs cf initCatalog rows,
      q.processed_rows = min (q.processed_rows + 0) q.processed_rows ∧
      q.processed_rows ≤ q.total_rows ∧
      q.total_rows = rows.length ∧ q.status = Status.importing ∧
      q.completed_at = false := by
  intro q hq
  obtain ⟨pr, hpr, rfl⟩ := List.mem_map.1 hq
  rw [importLoop, runChunksGo_snd cf rows rows.length
    (chunkStarts rows.length)] at hpr
  obtain ⟨i, _, rfl⟩ := List.mem_map.1 hpr
  exact ⟨by simp, Nat.min_le_right _ _, rfl, rfl, rfl⟩

/-- Claim C4: at each chunk boundary `processed_rows` is committed as
`min(chunk_end_offset, total_rows)` even when rows in the chunk
errored; across the whole run the committed `processed_rows` values are
non-decreasing and never exceed `total_rows`. -/
theorem C4_processed_rows_monotone (jobId filePath : String)
    (initCatalog : List Product) (inp : ImportInput)
    (cols : List String) (rows : List Row)
    (hfe : inp.fileExists = true) (hp : inp.parse = .ok cols rows)
    (h1 : "sku" ∈ cols) (h2 : "name" ∈ cols) :
    ((importLoop inp.commitFails initCatalog rows).2 =
      (chunkStarts rows.length).map (fun i => min (i + 100) rows.length))
  ∧ List.Chain' (fun a b => a.processed_rows ≤ b.processed_rows)
      (process_csv_import_sync jobId filePath initCatalog inp).trace
  ∧ ∀ j ∈ (process_csv_import_sync jobId filePath initCatalog inp).trace,
      j.processed_rows ≤ j.total_rows := by
  obtain ⟨fe, parse, cf, dlv, whs, rf⟩ := inp
  have hfe2 : fe = true := hfe
  subst hfe2
  have hp2 : parse = .ok cols rows := hp
  subst hp2
  rw [process_eq_importing jobId filePath initCatalog cf dlv whs rf cols rows
    (missing_isEmpty cols h1 h2)]
  refine ⟨runChunksGo_snd cf rows rows.length (chunkStarts rows.length) _,
    ?_, ?_⟩
  · show List.Chain' (fun a b => a.processed_rows ≤ b.processed_rows)
      (initialJob :: parsingJob :: importingJob rows.length ::
        (importChunkJobs cf initCatalog rows
          ++ [importFinalJob cf initCatalog rows]))
    refine List.chain'_cons.2 ⟨le_rfl, ?_⟩
    refine List.chain'_cons.2 ⟨le_rfl, ?_⟩
    refine List.chain'_cons'.2 ⟨fun y _ => Nat.zero_le _, ?_⟩
    refine List.chain'_append.2 ⟨?_, List.chain'_singleton _, ?_⟩
    · refine (List.chain'_map _).2 ?_
      exact importLoop_snd_sorted cf initCatalog rows
    · intro x hx y hy
      have hy2 : importFinalJob cf initCatalog rows = y := by simpa using hy
      subst hy2
      show x.processed_rows ≤ (importFinalJob cf initCatalog rows).processed_rows
      unfold importFinalJob
      rw [(classifyJob_rows _ _ _).1]
      have hbase : (importChunkJobs cf initCatalog rows).getLastD
          (importingJob rows.length) = x := by
        rw [List.getLastD_eq_getLast?, hx]
        rfl
      rw [hbase]
  · intro j hj
    show j.processed_rows ≤ j.total_rows
    have hj2 : j ∈ (initialJob :: parsingJob :: importingJob rows.length ::
        (importChunkJobs cf initCatalog rows
          ++ [importFinalJob cf initCatalog rows])) := hj
    simp only [List.mem_cons, List.mem_append] at hj2
    rcases hj2 with rfl | rfl | rfl | hj2 | rfl | h0
    · exact le_rfl
    · exact le_rfl
    · exact Nat.zero_le _
    · exact (importChunkJobs_bound cf initCatalog rows j hj2).2.1
    · unfold importFinalJob
      rw [(classifyJob_rows _ _ _).1, (classifyJob_rows _ _ _).2]
      rcases List.mem_cons.1 (List.getLastD_mem_cons
        (importChunkJobs cf initCatalog rows) (importingJob rows.length)) with
        hbase | hbase
      · rw [hbase]
        exact Nat.zero_le _
      · exact (importChunkJobs_bound cf initCatalog rows _ hbase).2.1
    · exact absurd h0 (List.not_mem_nil j)

/-- Witness for C4 at a concrete 2-row input: the single chunk snapshot
is min(100, 2) = 2, the committed progress trace is monotone and
bounded. -/
theorem C4_witness :
    ((importLoop (fun _ => none) [] [⟨some "A-1", some "Apple", none⟩,
        ⟨none, some "x", none⟩]).2 =
      (chunkStarts 2).map (fun i => min (i + 100) 2))
  ∧ List.Chain' (fun a b => a.processed_rows ≤ b.processed_rows)
      (process_csv_import_sync "J" "f.csv" []
        ⟨true, .ok ["sku", "name"] [⟨some "A-1", some "Apple", none⟩,
          ⟨none, some "x", none⟩],
          (fun _ => none), (fun _ => false), [], false⟩).trace :=
  ⟨(C4_processed_rows_monotone "J" "f.csv" []
      ⟨true, .ok ["sku", "name"] [⟨some "A-1", some "Apple", none⟩,
        ⟨none, some "x", none⟩],
        (fun _ => none), (fun _ => false), [], false⟩
      ["sku", "name"] [⟨some "A-1", some "Apple", none⟩, ⟨none, some "x", none⟩]
      rfl rfl (by decide) (by decide)).1,
   (C4_processed_rows_monotone "J" "f.csv" []
      ⟨true, .ok ["sku", "name"] [⟨some "A-1", some "Apple", none⟩,
        ⟨none, some "x", none⟩],
        (fun _ => none), (fun _ => false), [], false⟩
      ["sku", "name"] [⟨some "A-1", some "Apple", none⟩, ⟨none, some "x", none⟩]
      rfl rfl (by decide) (by decide)).2.1⟩

/-- Witness for C10: a one-row import gives processed = created +
updated = 1, the per-row invariant step holds on the empty state, and
the dispatched payload satisfies count = created + updated. -/
theorem C10_witness :
    ((process_csv_import_sync "J" "f.csv" []
        ⟨true, .ok ["sku", "name"] [⟨some "A-1", some "Apple", none⟩],
          (fun _ => none), (fun _ => false), [], false⟩).processed =
      (process_csv_import_sync "J" "f.csv" []
        ⟨true, .ok ["sku", "name"] [⟨some "A-1", some "Apple", none⟩],
          (fun _ => none), (fun _ => false), [], false⟩).created +
        (process_csv_import_sync "J" "f.csv" []
          ⟨true, .ok ["sku", "name"] [⟨some "A-1", some "Apple", none⟩],
            (fun _ => none), (fun _ => false), [], false⟩).updated)
  ∧ ((processRow (fun _ => none) ⟨0, 0, 0, 0, [], [], [], 0⟩ 0
        ⟨some "A-1", some "Apple", none⟩).processed =
      (processRow (fun _ => none) ⟨0, 0, 0, 0, [], [], [], 0⟩ 0
        ⟨some "A-1", some "Apple", none⟩).created +
        (processRow (fun _ => none) ⟨0, 0, 0, 0, [], [], [], 0⟩ 0
          ⟨some "A-1", some "Apple", none⟩).updated)
  ∧ (⟨"J", 1, 1, 0, 0⟩ : Payload).count =
      (⟨"J", 1, 1, 0, 0⟩ : Payload).created + (⟨"J", 1, 1, 0, 0⟩ : Payload).updated := by
  refine ⟨?_, ?_, ?_⟩
  · exact (C10_processed_eq_created_add_updated "J" "f.csv" []
      ⟨true, .ok ["sku", "name"] [⟨some "A-1", some "Apple", none⟩],
        (fun _ => none), (fun _ => false), [], false⟩).1
  · exact (C10_processed_eq_created_add_updated "J" "f.csv" []
      ⟨true, .ok ["sku", "name"] [⟨some "A-1", some "Apple", none⟩],
        (fun _ => none), (fun _ => false), [], false⟩).2.1
      (fun _ => none) ⟨0, 0, 0, 0, [], [], [], 0⟩ 0
      ⟨some "A-1", some "Apple", none⟩ (by decide)
  · exact (C10_processed_eq_created_add_updated "J" "f.csv" []
      ⟨true, .ok ["sku", "name"] [⟨some "A-1", some "Apple", none⟩],
        (fun _ => none), (fun _ => false), [], false⟩).2.2
      ⟨"J", 1, 1, 0, 0⟩ (by decide)

/-! Status lifecycle -/

/-- Failed is reachable from any status. -/
lemma statusStep_failed (s : Status) : statusStep s .failed = true := by
  cases s <;> rfl

/-- Helper: last element of a list is a member. -/
lemma mem_of_getLast? {l : List Job} {x : Job} (h : l.getLast? = some x) :
    x ∈ l := by
  obtain ⟨hne, rfl⟩ := List.mem_getLast?_eq_getLast (Option.mem_def.2 h)
  exact List.getLast_mem hne

/-- The terminal job: terminal status, completion timestamp set,
reachable from importing. -/
lemma classifyJob_terminal (jBase : Job) (total : Nat) (st : LoopState) :
    (classifyJob jBase total st).status.isTerminal = true ∧
    (classifyJob jBase total st).completed_at = true ∧
    statusStep Status.importing (classifyJob jBase total st).status = true := by
  unfold classifyJob failJob
  by_cases h1 : 0 < st.errorCount
  · by_cases h2 : st.processed = 0
    · rw [if_pos h1, if_pos h2]
      exact ⟨rfl, rfl, rfl⟩
    · rw [if_pos h1, if_neg h2]
      exact ⟨rfl, rfl, rfl⟩
  · rw [if_neg h1]
    exact ⟨rfl, rfl, rfl⟩

/-- A run of states that all sit at importing is a chain. -/
lemma chain'_stepOK_of_importing (l : List Job)
    (h : ∀ q ∈ l, q.status = Status.importing) :
    List.Chain' (fun a b => stepOK a b = true) l := by
  induction l with
  | nil => exact List.chain'_nil
  | cons a l ih =>
    refine List.chain'_cons'.2 ⟨?_, ih fun q hq => h q (List.mem_cons_of_mem _ hq)⟩
    intro y hy
    have hys := h y (List.mem_cons_of_mem _ (List.mem_of_mem_head? hy))
    have has := h a (List.mem_cons_self a l)
    unfold stepOK
    rw [has, hys]
    rfl

/-- The committed states of a fault-free run form a chain of the status
graph. -/
lemma trace_chain (jobId filePath : String) (initCatalog : List Product)
    (inp : ImportInput) :
    List.Chain' (fun a b => stepOK a b = true)
      (process_csv_import_sync jobId filePath initCatalog inp).trace := by
  obtain ⟨fe, parse, cf, dlv, whs, rf⟩ := inp
  have early : ∀ msg : String, List.Chain' (fun a b => stepOK a b = true)
      (earlyFailure initialJob parsingJob initCatalog msg).trace := by
    intro msg
    exact List.chain'_cons.2 ⟨rfl,
      List.chain'_cons.2 ⟨rfl, List.chain'_singleton _⟩⟩
  cases fe with
  | false => exact early _
  | true =>
    cases parse with
    | decodeError => exact early _
    | parseFailure msg => exact early _
    | ok cols rows =>
      by_cases hm : (requiredCols.filter (fun c => !cols.contains c)).isEmpty
      · rw [process_eq_importing jobId filePath initCatalog cf dlv whs rf
          cols rows hm]
        show List.Chain' (fun a b => stepOK a b = true)
          (initialJob :: parsingJob :: importingJob rows.length ::
            (importChunkJobs cf initCatalog rows
              ++ [importFinalJob cf initCatalog rows]))
        refine List.chain'_cons.2 ⟨rfl, ?_⟩
        refine List.chain'_cons.2 ⟨rfl, ?_⟩
        have hall : ∀ q ∈ importChunkJobs cf initCatalog rows,
            q.status = Status.importing :=
          fun q hq => (importChunkJobs_bound cf initCatalog rows q hq).2.2.2.1
        refine List.chain'_cons'.2 ⟨?_, ?_⟩
        · intro y hy
          have hym := List.mem_of_mem_head? hy
          rcases List.mem_append.1 hym with hyc | hyt
          · unfold stepOK
            rw [hall y hyc]
            rfl
          · have : y = importFinalJob cf initCatalog rows := by
              simpa using hyt
            subst this
            exact (classifyJob_terminal _ _ _).2.2
        · refine List.chain'_append.2
            ⟨chain'_stepOK_of_importing _ hall, List.chain'_singleton _, ?_⟩
          intro x hx y hy
          have : importFinalJob cf initCatalog rows = y := by simpa using hy
          subst this
          have hxs := hall x (mem_of_getLast? hx)
          unfold stepOK
          rw [hxs]
          exact (classifyJob_terminal _ _ _).2.2
      · rw [process_eq_schema jobId filePath initCatalog cf dlv whs rf
          cols rows (Bool.eq_false_iff.2 hm)]
        exact early _

/-- Every committed state of a fault-free run has its completion
timestamp set exactly when its status is terminal. -/
lemma trace_completed_at (jobId filePath : String)
    (initCatalog : List Product) (inp : ImportInput) :
    ∀ j ∈ (process_csv_import_sync jobId filePath initCatalog inp).trace,
      j.completed_at = j.status.isTerminal := by
  obtain ⟨fe, parse, cf, dlv, whs, rf⟩ := inp
  have early : ∀ (msg : String) j,
      j ∈ (earlyFailure initialJob parsingJob initCatalog msg).trace →
      j.completed_at = j.status.isTerminal := by
    intro msg j hj
    have hj2 : j ∈ [initialJob, parsingJob, failJob parsingJob msg] := hj
    simp only [List.mem_cons, List.mem_nil_iff, or_false] at hj2
    rcases hj2 with rfl | rfl | rfl <;> rfl
  cases fe with
  | false => exact early _
  | true =>
    cases parse with
    | decodeError => exact early _
    | parseFailure msg => exact early _
    | ok cols rows =>
      by_cases hm : (requiredCols.filter (fun c => !cols.contains c)).isEmpty
      · rw [process_eq_importing jobId filePath initCatalog cf dlv whs rf
          cols rows hm]
        intro j hj
        have hj2 : j ∈ (initialJob :: parsingJob :: importingJob rows.length ::
            (importChunkJobs cf initCatalog rows
              ++ [importFinalJob cf initCatalog rows])) := hj
        simp only [List.mem_cons, List.mem_append] at hj2
        rcases hj2 with rfl | rfl | rfl | hj2 | rfl | h0
        · rfl
        · rfl
        · rfl
        · obtain ⟨_, _, _, hst, hca⟩ :=
            importChunkJobs_bound cf initCatalog rows j hj2
          rw [hca, hst]
          rfl
        · unfold importFinalJob
          rw [(classifyJob_terminal _ _ _).1, (classifyJob_terminal _ _ _).2.1]
        · exact absurd h0 (List.not_mem_nil j)
      · rw [process_eq_schema jobId filePath initCatalog cf dlv whs rf
          cols rows (Bool.eq_false_iff.2 hm)]
        exact early _

/-- The last committed state of a fault-free run is terminal. -/
lemma trace_last_terminal (jobId filePath : String)
    (initCatalog : List Product) (inp : ImportInput) :
    (((process_csv_import_sync jobId filePath initCatalog
        inp).trace.getLastD initialJob)).status.isTerminal = true := by
  obtain ⟨fe, parse, cf, dlv, whs, rf⟩ := inp
  cases fe with
  | false => rfl
  | true =>
    cases parse with
    | decodeError => rfl
    | parseFailure msg => rfl
    | ok cols rows =>
      by_cases hm : (requiredCols.filter (fun c => !cols.contains c)).isEmpty
      · rw [process_eq_importing jobId filePath initCatalog cf dlv whs rf
          cols rows hm]
        show ((initialJob :: parsingJob :: importingJob rows.length ::
            (importChunkJobs cf initCatalog rows
              ++ [importFinalJob cf initCatalog rows])).getLastD
          initialJob).status.isTerminal = true
        rw [List.getLastD_cons, List.getLastD_cons, List.getLastD_cons,
          List.getLastD_concat]
        exact (classifyJob_terminal _ _ _).1
      · rw [process_eq_schema jobId filePath initCatalog cf dlv whs rf
          cols rows (Bool.eq_false_iff.2 hm)]
        rfl

/-- Claim C2: over any run, with or without an unexpected exception
escaping the pipeline, the committed job states follow the forward
status graph pending → parsing → importing → {completed,
completed_with_errors, failed} with failed reachable from anywhere and
no regression; the last committed state is always terminal; every
committed state has `completed_at` set exactly when its status is
terminal; and when an unexpected exception cuts the run after any
commit the handler-committed final state is `failed` with the fatal
diagnostic built from the exception detail. -/
theorem C2_status_monotone_terminal (jobId filePath : String)
    (initCatalog : List Product) (inp : ImportInput)
    (fault : Option (Nat × String × String)) :
    List.Chain' (fun a b => stepOK a b = true)
      (traceWithFault jobId filePath initCatalog inp fault)
  ∧ ((traceWithFault jobId filePath initCatalog inp
      fault).getLastD initialJob).status.isTerminal = true
  ∧ (∀ j ∈ traceWithFault jobId filePath initCatalog inp fault,
      j.completed_at = j.status.isTerminal)
  ∧ (∀ k excMsg tb, fault = some (k, excMsg, tb) →
      k < (process_csv_import_sync jobId filePath initCatalog
        inp).trace.length →
      ((traceWithFault jobId filePath initCatalog inp
          fault).getLastD initialJob).status = .failed ∧
      ((traceWithFault jobId filePath initCatalog inp
          fault).getLastD initialJob).error_message =
        some (fatalMessage excMsg tb)) := by
  cases fault with
  | none =>
    refine ⟨trace_chain jobId filePath initCatalog inp,
      trace_last_terminal jobId filePath initCatalog inp,
      trace_completed_at jobId filePath initCatalog inp, ?_⟩
    intro k excMsg tb heq
    exact absurd heq (by simp)
  | some f =>
    obtain ⟨k, excMsg, tb⟩ := f
    by_cases hk : k <
        (process_csv_import_sync jobId filePath initCatalog inp).trace.length
    · have hT : traceWithFault jobId filePath initCatalog inp
          (some (k, excMsg, tb)) =
          (process_csv_import_sync jobId filePath initCatalog
            inp).trace.take (k + 1) ++
            [fatalJob ((process_csv_import_sync jobId filePath initCatalog
              inp).trace.get ⟨k, hk⟩) excMsg tb] := by
        simp only [traceWithFault]
        rw [dif_pos hk]
      rw [hT]
      refine ⟨?_, ?_, ?_, ?_⟩
      · refine List.chain'_append.2
          ⟨(trace_chain jobId filePath initCatalog inp).take (k + 1),
            List.chain'_singleton _, ?_⟩
        intro x _ y hy
        have : fatalJob ((process_csv_import_sync jobId filePath initCatalog
            inp).trace.get ⟨k, hk⟩) excMsg tb = y := by simpa using hy
        subst this
        exact statusStep_failed _
      · rw [List.getLastD_eq_getLast?, List.getLast?_concat]
        rfl
      · intro j hj
        rcases List.mem_append.1 hj with hjt | hjf
        · exact trace_completed_at jobId filePath initCatalog inp j
            (List.mem_of_mem_take hjt)
        · have : j = fatalJob ((process_csv_import_sync jobId filePath
              initCatalog inp).trace.get ⟨k, hk⟩) excMsg tb := by
            simpa using hjf
          subst this
          rfl
      · intro k2 excMsg2 tb2 heq _
        simp only [Option.some.injEq, Prod.mk.injEq] at heq
        obtain ⟨rfl, rfl, rfl⟩ := heq
        rw [List.getLastD_eq_getLast?, List.getLast?_concat]
        exact ⟨rfl, rfl⟩
    · have hT : traceWithFault jobId filePath initCatalog inp
          (some (k, excMsg, tb)) =
          (process_csv_import_sync jobId filePath initCatalog inp).trace := by
        simp only [traceWithFault]
        rw [dif_neg hk]
      rw [hT]
      refine ⟨trace_chain jobId filePath initCatalog inp,
        trace_last_terminal jobId filePath initCatalog inp,
        trace_completed_at jobId filePath initCatalog inp, ?_⟩
      intro k2 excMsg2 tb2 heq hlt
      simp only [Option.some.injEq, Prod.mk.injEq] at heq
      obtain ⟨rfl, rfl, rfl⟩ := heq
      exact absurd hlt hk

/-- Witness for C2: on a fault-free concrete run the chain, terminality
and timestamp facts hold, and with a fault injected after the second
commit the final state is failed with the fatal diagnostic. -/
theorem C2_witness :
    List.Chain' (fun a b => stepOK a b = true)
      (traceWithFault "J" "f.csv" []
        ⟨true, .ok ["sku", "name"] [⟨some "A-1", some "Apple", none⟩],
          (fun _ => none), (fun _ => false), [], false⟩ none)
  ∧ ((traceWithFault "J" "f.csv" []
      ⟨true, .ok ["sku", "name"] [⟨some "A-1", some "Apple", none⟩],
        (fun _ => none), (fun _ => false), [], false⟩
      (some (1, "boom", "tb"))).getLastD initialJob).status = .failed
  ∧ ((traceWithFault "J" "f.csv" []
      ⟨true, .ok ["sku", "name"] [⟨some "A-1", some "Apple", none⟩],
        (fun _ => none), (fun _ => false), [], false⟩
      (some (1, "boom", "tb"))).getLastD initialJob).error_message =
      some (fatalMessage "boom" "tb") := by
  refine ⟨?_, ?_⟩
  · exact (C2_status_monotone_terminal "J" "f.csv" []
      ⟨true, .ok ["sku", "name"] [⟨some "A-1", some "Apple", none⟩],
        (fun _ => none), (fun _ => false), [], false⟩ none).1
  · exact (C2_status_monotone_terminal "J" "f.csv" []
      ⟨true, .ok ["sku", "name"] [⟨some "A-1", some "Apple", none⟩],
        (fun _ => none), (fun _ => false), [], false⟩
      (some (1, "boom", "tb"))).2.2.2 1 "boom" "tb" rfl (by decide)

/-! Checkpoint failure accounting -/

/-- Claim C6 (code bug): the every-50-rows checkpoint failure does add
exactly one error, but a failing chunk-boundary commit adds
`chunk_size - processed_count` (with the global success count) to
`error_count` while appending a single error line.  Concretely: a
one-row import whose single chunk commit fails records one error line
yet ends with `error_count = 99` and status completed_with_errors, so
"exactly one additional error is recorded" is false on the code. -/
theorem C6_chunk_commit_miscount :
    ((process_csv_import_sync "J" "f.csv" []
        ⟨true, .ok ["sku", "name"] [⟨some "A-1", some "Apple", none⟩],
          (fun n => if n == 0 then some "connection lost" else none),
          (fun _ => false), [], false⟩).errors =
      ["Failed to commit chunk at row 0: connection lost"])
  ∧ ((process_csv_import_sync "J" "f.csv" []
        ⟨true, .ok ["sku", "name"] [⟨some "A-1", some "Apple", none⟩],
          (fun n => if n == 0 then some "connection lost" else none),
          (fun _ => false), [], false⟩).errorCount = 99)
  ∧ ((process_csv_import_sync "J" "f.csv" []
        ⟨true, .ok ["sku", "name"] [⟨some "A-1", some "Apple", none⟩],
          (fun n => if n == 0 then some "connection lost" else none),
          (fun _ => false), [], false⟩).processed = 1)
  ∧ ((process_csv_import_sync "J" "f.csv" []
        ⟨true, .ok ["sku", "name"] [⟨some "A-1", some "Apple", none⟩],
          (fun n => if n == 0 then some "connection lost" else none),
          (fun _ => false), [], false⟩).finalJob.status =
      .completedWithErrors)
  ∧ (∀ (fail : Nat → Option String) (st : LoopState) (idx : Nat) msg,
      st.processed % 50 == 0 → fail st.commitIdx = some msg →
      (maybeCommit fail st idx).errorCount = st.errorCount + 1 ∧
      (maybeCommit fail st idx).errors = st.errors ++
        ["Database error at row " ++ toString (idx + 2) ++ ": " ++ msg]) := by
  refine ⟨by decide, by decide, by decide, by decide, ?_⟩
  intro fail st idx msg h50 hf
  unfold maybeCommit
  rw [if_pos h50, hf]
  exact ⟨rfl, rfl⟩

/-! ## Staged-file cleanup -/

/-- Counterexample to claim C7: a run that fails the schema check (the
spec's own "header `sku,description`" scenario) ends with the job
failed and the staged upload file not removed, although removal would
have succeeded — the cleanup statements are only reached after the
row-processing phase. -/
theorem C7_counterexample :
    ((process_csv_import_sync "J" "up.csv" []
        ⟨true, .ok ["sku", "description"] [⟨some "P-1", none, some "x"⟩],
          (fun _ => none), (fun _ => false), [], false⟩).finalJob.status =
      .failed)
  ∧ ((process_csv_import_sync "J" "up.csv" []
        ⟨true, .ok ["sku", "description"] [⟨some "P-1", none, some "x"⟩],
          (fun _ => none), (fun _ => false), [], false⟩).fileRemoved =
      false) := by
  exact ⟨by decide, by decide⟩

/-- Claim C7 as amended: the staged upload file is removed (attempted)
exactly by runs that reach and finish the row-processing phase,
regardless of terminal classification, and the removal succeeds iff
`os.remove` does not raise; on missing-file, decode, parse-failure and
schema-failure paths the file is not removed; a removal failure is only
logged — the committed job states and the terminal job are independent
of the removal outcome. -/
theorem C7_cleanup_amended (jobId filePath : String)
    (initCatalog : List Product) (inp : ImportInput)
    (cols : List String) (rows : List Row) (b : Bool) :
    (inp.fileExists = true → inp.parse = .ok cols rows →
      "sku" ∈ cols → "name" ∈ cols →
      (process_csv_import_sync jobId filePath initCatalog inp).fileRemoved =
        !inp.removeFails)
  ∧ (inp.fileExists = false →
      (process_csv_import_sync jobId filePath initCatalog inp).fileRemoved =
        false)
  ∧ (inp.parse = .decodeError →
      (process_csv_import_sync jobId filePath initCatalog inp).fileRemoved =
        false)
  ∧ (∀ m, inp.parse = .parseFailure m →
      (process_csv_import_sync jobId filePath initCatalog inp).fileRemoved =
        false)
  ∧ (∀ cols2 rows2, inp.parse = .ok cols2 rows2 →
      (requiredCols.filter (fun c => !cols2.contains c)).isEmpty = false →
      (process_csv_import_sync jobId filePath initCatalog inp).fileRemoved =
        false)
  ∧ ((process_csv_import_sync jobId filePath initCatalog
        { inp with removeFails := b }).trace =
      (process_csv_import_sync jobId filePath initCatalog inp).trace)
  ∧ ((process_csv_import_sync jobId filePath initCatalog
        { inp with removeFails := b }).finalJob =
      (process_csv_import_sync jobId filePath initCatalog inp).finalJob) := by
  obtain ⟨fe, parse, cf, dlv, whs, rf⟩ := inp
  refine ⟨?_, ?_, ?_, ?_, ?_, ?_, ?_⟩
  · intro hfe hp h1 h2
    have hfe2 : fe = true := hfe
    subst hfe2
    have hp2 : parse = .ok cols rows := hp
    subst hp2
    rw [process_eq_importing jobId filePath initCatalog cf dlv whs rf cols
      rows (missing_isEmpty cols h1 h2)]
    rfl
  · intro hfe
    have hfe2 : fe = false := hfe
    subst hfe2
    rfl
  · intro hpd
    have hpd2 : parse = .decodeError := hpd
    subst hpd2
    cases fe <;> rfl
  · intro m hpm
    have hpm2 : parse = .parseFailure m := hpm
    subst hpm2
    cases fe <;> rfl
  · intro cols2 rows2 hp hm
    have hp2 : parse = .ok cols2 rows2 := hp
    subst hp2
    cases fe with
    | false => rfl
    | true =>
      rw [process_eq_schema jobId filePath initCatalog cf dlv whs rf cols2
        rows2 hm]
      rfl
  · cases fe with
    | false => rfl
    | true =>
      cases parse with
      | decodeError => rfl
      | parseFailure msg => rfl
      | ok cols3 rows3 =>
        by_cases hm : (requiredCols.filter (fun c => !cols3.contains c)).isEmpty
        · rw [process_eq_importing jobId filePath initCatalog cf dlv whs b
            cols3 rows3 hm,
            process_eq_importing jobId filePath initCatalog cf dlv whs rf
            cols3 rows3 hm]
          rfl
        · rw [process_eq_schema jobId filePath initCatalog cf dlv whs b
            cols3 rows3 (Bool.eq_false_iff.2 hm),
            process_eq_schema jobId filePath initCatalog cf dlv whs rf
            cols3 rows3 (Bool.eq_false_iff.2 hm)]
  · cases fe with
    | false => rfl
    | true =>
      cases parse with
      | decodeError => rfl
      | parseFailure msg => rfl
      | ok cols3 rows3 =>
        by_cases hm : (requiredCols.filter (fun c => !cols3.contains c)).isEmpty
        · rw [process_eq_importing jobId filePath initCatalog cf dlv whs b
            cols3 rows3 hm,
            process_eq_importing jobId filePath initCatalog cf dlv whs rf
            cols3 rows3 hm]
          rfl
        · rw [process_eq_schema jobId filePath initCatalog cf dlv whs b
            cols3 rows3 (Bool.eq_false_iff.2 hm),
            process_eq_schema jobId filePath initCatalog cf dlv whs rf
            cols3 rows3 (Bool.eq_false_iff.2 hm)]

/-- Witness for the amended C7: a successful one-row run removes the
file when removal does not raise, and keeps the same terminal job when
removal raises. -/
theorem C7_witness :
    ((process_csv_import_sync "J" "f.csv" []
        ⟨true, .ok ["sku", "name"] [⟨some "A-1", some "Apple", none⟩],
          (fun _ => none), (fun _ => false), [], false⟩).fileRemoved = !false)
  ∧ ((process_csv_import_sync "J" "f.csv" []
        ⟨true, .ok ["sku", "name"] [⟨some "A-1", some "Apple", none⟩],
          (fun _ => none), (fun _ => false), [], true⟩).finalJob =
      (process_csv_import_sync "J" "f.csv" []
        ⟨true, .ok ["sku", "name"] [⟨some "A-1", some "Apple", none⟩],
          (fun _ => none), (fun _ => false), [], false⟩).finalJob) := by
  refine ⟨?_, ?_⟩
  · exact (C7_cleanup_amended "J" "f.csv" []
      ⟨true, .ok ["sku", "name"] [⟨some "A-1", some "Apple", none⟩],
        (fun _ => none), (fun _ => false), [], false⟩
      ["sku", "name"] [⟨some "A-1", some "Apple", none⟩] false).1
      rfl rfl (by decide) (by decide)
  · exact (C7_cleanup_amended "J" "f.csv" []
      ⟨true, .ok ["sku", "name"] [⟨some "A-1", some "Apple", none⟩],
        (fun _ => none), (fun _ => false), [], false⟩
      ["sku", "name"] [⟨some "A-1", some "Apple", none⟩] true).2.2.2.2.2.2

end ProductImporter
